import Mathlib

/-!
# Sun–Earth–Moon demo (`GLProject/ModelsMain.cpp`): embedding and properties

The program's bespoke logic is embedded as pure functions:

* `createCircle`              – orbit polyline generator (lines 54–61)
* `calculateLightIntensity`   – lighting heuristic (lines 78–88)
* `frame`                     – pose, alignment test and tint resolution of one
                                iteration of the render loop (lines 150–245)
* `processInput`              – the debounced G/H/J mode keys (lines 282–288)

Number model.  `float` is idealised as a linear ordered field `α`; rounding,
infinities and NaN are not modelled.  The external numeric routines (`sqrt`
behind `glm::length` / `glm::normalize`, `cos`, `sin`) are parameters, bundled in
`MathOps`; `MathOps.Exact` states the laws of the exact real functions, which
`Real.sqrt`, `Real.cos`, `Real.sin` satisfy.  The two divisions written in the
program itself (`200.0f / distance` and `… / s`) are fallible: a zero divisor
yields `none`.  An `int` is an integer of `ℤ`; the `int` loop counter of
`createCircle` is bounded by `INT_MAX`, and an increment past it has no result.
-/

namespace SolarSystem

/-! ## Vectors and the external numeric routines -/

/-- The `glm::vec3` value type. -/
structure Vec3 (α : Type) where
  x : α
  y : α
  z : α

/-- External numeric routines used by the program. -/
structure MathOps (α : Type) where
  sqrt : α → α
  cos : α → α
  sin : α → α

variable {α : Type} [LinearOrderedField α]

/-- Laws of the exact (real-number) routines. -/
structure MathOps.Exact (M : MathOps α) : Prop where
  sqrt_nonneg : ∀ x, 0 ≤ M.sqrt x
  mul_self_sqrt : ∀ x, 0 ≤ x → M.sqrt x * M.sqrt x = x
  cos_sq_add_sin_sq : ∀ a, M.cos a * M.cos a + M.sin a * M.sin a = 1

/-- Component-wise difference: `a - b` on `vec3`. -/
def Vec3.sub (a b : Vec3 α) : Vec3 α :=
  ⟨a.x - b.x, a.y - b.y, a.z - b.z⟩

/-- Scaling by a scalar: `v * k` on `vec3`. -/
def Vec3.scale (v : Vec3 α) (k : α) : Vec3 α :=
  ⟨v.x * k, v.y * k, v.z * k⟩

/-- The function `glm::dot` on `vec3`. -/
def dot (a b : Vec3 α) : α :=
  a.x * b.x + a.y * b.y + a.z * b.z

/-- The function `glm::length`: `sqrt(dot(v, v))`. -/
def length (M : MathOps α) (v : Vec3 α) : α :=
  M.sqrt (dot v v)

/-- The function `glm::normalize`: `v * inversesqrt(dot(v, v))`. -/
def normalize (M : MathOps α) (v : Vec3 α) : Vec3 α :=
  v.scale (1 / M.sqrt (dot v v))

/-- The function `glm::clamp`: `min(max(x, minVal), maxVal)`. -/
def clamp (x minVal maxVal : α) : α :=
  min (max x minVal) maxVal

/-- Division as written in the program text; a zero divisor has no value. -/
def fdiv (a b : α) : Option α :=
  if b = 0 then none else some (a / b)

/-! ## Orbit geometry generator -/

/-- The largest value of the 32-bit type `int`. -/
def INT_MAX : ℤ := 2147483647

/-- One iteration of the loop body of `createCircle`: the point pushed for
counter value `i`. -/
def circlePoint (M : MathOps α) (r : α) (s : ℤ) (i : ℤ) : Option (Vec3 α) :=
  (fdiv (2 * 3.14159 * (i : α)) (s : α)).map
    (fun a => ⟨M.cos a * r, 0, M.sin a * r⟩)

/-- The loop `for (int i = 0; i <= s; i++) { ...; p.push_back(...); }` of
`createCircle`, entered with counter `i` and vector `p`.  The counter is an `int`:
when `i++` would pass `INT_MAX` the increment overflows and the call has no
result.  `none` also when an iteration divides by `s = 0`. -/
def createCircleLoop (M : MathOps α) (r : α) (s : ℤ) (i : ℤ) (p : List (Vec3 α)) :
    Option (List (Vec3 α)) :=
  if i ≤ s then
    match circlePoint M r s i with
    | none => none
    | some v =>
      if i + 1 ≤ INT_MAX then createCircleLoop M r s (i + 1) (p ++ [v]) else none
  else
    some p
termination_by (INT_MAX - i).toNat
decreasing_by omega

/-- `vector<vec3> createCircle(float r, int s)`: an empty vector `p`, the loop
from `i = 0`, then `return p`. -/
def createCircle (M : MathOps α) (r : α) (s : ℤ) : Option (List (Vec3 α)) :=
  createCircleLoop M r s 0 []

/-- The point `vec3(cos(a) * r, 0.0f, sin(a) * r)` with `a = 2.0f * 3.14159f * i / s`,
as a total function (used to state what the loop pushes when `s ≠ 0`). -/
def circleVertex (M : MathOps α) (r : α) (s : ℤ) (i : ℤ) : Vec3 α :=
  ⟨M.cos (2 * 3.14159 * (i : α) / (s : α)) * r, 0,
    M.sin (2 * 3.14159 * (i : α) / (s : α)) * r⟩

/-! ## Lighting heuristic -/

/-- `float calculateLightIntensity(vec3 objectPos, vec3 sunPos, bool isInShadow)`;
`none` when `distance` is zero. -/
def calculateLightIntensity (M : MathOps α) (objectPos sunPos : Vec3 α)
    (isInShadow : Bool) : Option α :=
  if isInShadow then
    some 0.1
  else
    let distance := length M (objectPos.sub sunPos)
    (fdiv 200 distance).map (fun intensity => clamp intensity 0.5 2)

/-! ## Per-frame scene state -/

/-- The process-wide scene variables read by a frame (lines 27–41). -/
structure Globals (α : Type) where
  earthOrbitAngle : α
  moonOrbitAngle : α
  earthOrbitRadius : α
  moonOrbitRadius : α
  sunLightPos : Vec3 α
  forceSolarEclipse : Bool
  forceLunarEclipse : Bool

/-- The initial values of the scene variables. -/
def Globals.initial : Globals α :=
  { earthOrbitAngle := 0
    moonOrbitAngle := 0
    earthOrbitRadius := 200
    moonOrbitRadius := 80
    sunLightPos := ⟨0, 0, 0⟩
    forceSolarEclipse := false
    forceLunarEclipse := false }

/-- The values a frame computes for Earth and Moon: the locals `earthPos`,
`moonPos`, `angle` (the dot product of line 174), `isNaturalEclipse`,
`earthInShadow`, `earthLightMultiplier` and `moonLightMultiplier`.  A multiplier
is `none` when its call of `calculateLightIntensity` divides by zero. -/
structure FrameResult (α : Type) where
  earthPos : Vec3 α
  moonPos : Vec3 α
  angle : α
  isNaturalEclipse : Bool
  earthInShadow : Bool
  earthLightMultiplier : Option α
  moonLightMultiplier : Option α

/-- Lines 150–169: `(earthX, earthZ, moonX, moonZ)`. -/
def pose (M : MathOps α) (g : Globals α) : α × α × α × α :=
  if g.forceSolarEclipse then
    let earthX := g.earthOrbitRadius
    let earthZ := 0
    let moonX := earthX - g.moonOrbitRadius
    let moonZ := 0
    (earthX, earthZ, moonX, moonZ)
  else if g.forceLunarEclipse then
    let earthX := g.earthOrbitRadius
    let earthZ := 0
    let moonX := earthX + g.moonOrbitRadius
    let moonZ := 0
    (earthX, earthZ, moonX, moonZ)
  else
    let earthX := g.earthOrbitRadius * M.cos g.earthOrbitAngle
    let earthZ := g.earthOrbitRadius * M.sin g.earthOrbitAngle
    let moonX := earthX + g.moonOrbitRadius * M.cos g.moonOrbitAngle
    let moonZ := earthZ + g.moonOrbitRadius * M.sin g.moonOrbitAngle
    (earthX, earthZ, moonX, moonZ)

/-- Lines 193–224: `(earthInShadow, earthLightMultiplier)`. -/
def earthLight (M : MathOps α) (g : Globals α) (isNaturalEclipse : Bool)
    (earthPos : Vec3 α) : Bool × Option α :=
  if g.forceSolarEclipse then
    (true, some 0.1)
  else if g.forceLunarEclipse then
    if isNaturalEclipse then
      (true, some 0.1)
    else
      (false, calculateLightIntensity M earthPos g.sunLightPos false)
  else
    if isNaturalEclipse then
      (true, some 0.1)
    else
      (false, calculateLightIntensity M earthPos g.sunLightPos false)

/-- Lines 236–245: `moonLightMultiplier`. -/
def moonLight (M : MathOps α) (g : Globals α) (moonPos : Vec3 α) : Option α :=
  if g.forceLunarEclipse then
    some 0.1
  else
    calculateLightIntensity M moonPos g.sunLightPos false

/-- The scene part of one iteration of the render loop (lines 150–245). -/
def frame (M : MathOps α) (g : Globals α) : FrameResult α :=
  let p := pose M g
  let earthX := p.1
  let earthZ := p.2.1
  let moonX := p.2.2.1
  let moonZ := p.2.2.2
  let toSun := normalize M ⟨-earthX, 0, -earthZ⟩
  let toMoon := normalize M ⟨moonX - earthX, 0, moonZ - earthZ⟩
  let angle := dot toSun toMoon
  let isNaturalEclipse := decide (angle > 0.99)
  let earthPos : Vec3 α := ⟨earthX, 0, earthZ⟩
  let moonPos : Vec3 α := ⟨moonX, 0, moonZ⟩
  let e := earthLight M g isNaturalEclipse earthPos
  { earthPos := earthPos
    moonPos := moonPos
    angle := angle
    isNaturalEclipse := isNaturalEclipse
    earthInShadow := e.1
    earthLightMultiplier := e.2
    moonLightMultiplier := moonLight M g moonPos }

/-! ## Eclipse mode, as the specification names it -/

/-- The tri-state eclipse mode of the specification. -/
inductive Mode where
  | Normal
  | ForceSolar
  | ForceLunar
  deriving DecidableEq, Repr

/-- Value of `forceSolarEclipse` in a mode. -/
def Mode.solar : Mode → Bool
  | .ForceSolar => true
  | _ => false

/-- Value of `forceLunarEclipse` in a mode. -/
def Mode.lunar : Mode → Bool
  | .ForceLunar => true
  | _ => false

/-- The branch table of the specification (§4.3): Earth shadow flag, Earth tint
multiplier and Moon tint multiplier from the mode, the natural-alignment result
and the two heuristic values. -/
def specTable (mode : Mode) (aligned : Bool) (heuristicEarth heuristicMoon : Option α) :
    Bool × Option α × Option α :=
  match mode, aligned with
  | .ForceSolar, _ => (true, some 0.1, heuristicMoon)
  | .ForceLunar, true => (true, some 0.1, some 0.1)
  | .ForceLunar, false => (false, heuristicEarth, some 0.1)
  | .Normal, true => (true, some 0.1, heuristicMoon)
  | .Normal, false => (false, heuristicEarth, heuristicMoon)

/-! ## Input handler -/

/-- The value `GLFW_RELEASE` of the GLFW header. -/
def GLFW_RELEASE : ℤ := 0

/-- The value `GLFW_PRESS` of the GLFW header. -/
def GLFW_PRESS : ℤ := 1

/-- What `glfwGetKey` reports for the three mode keys during one frame. -/
structure Keys where
  G : ℤ
  H : ℤ
  J : ℤ

/-- The two mode flags and the three function-local latches of `processInput`. -/
structure InputState where
  forceSolarEclipse : Bool
  forceLunarEclipse : Bool
  g : Bool
  h : Bool
  j : Bool
  deriving DecidableEq, Repr

/-- Program start: both flags false, all latches false. -/
def InputState.initial : InputState :=
  ⟨false, false, false, false, false⟩

/-- Guard of the solar-force action (line 283). -/
def solarFires (k : Keys) (st : InputState) : Bool :=
  decide (k.G = GLFW_PRESS) && !st.g

/-- Lines 283–284: the G key. -/
def stepG (k : Keys) (st : InputState) : InputState :=
  let st1 :=
    if solarFires k st then
      { st with forceSolarEclipse := true, forceLunarEclipse := false, g := true }
    else st
  if k.G = GLFW_RELEASE then { st1 with g := false } else st1

/-- Lines 285–286: the H key. -/
def stepH (k : Keys) (st : InputState) : InputState :=
  let st1 :=
    if decide (k.H = GLFW_PRESS) && !st.h then
      { st with forceLunarEclipse := true, forceSolarEclipse := false, h := true }
    else st
  if k.H = GLFW_RELEASE then { st1 with h := false } else st1

/-- Lines 287–288: the J key. -/
def stepJ (k : Keys) (st : InputState) : InputState :=
  let st1 :=
    if decide (k.J = GLFW_PRESS) && !st.j then
      { st with forceSolarEclipse := false, forceLunarEclipse := false, j := true }
    else st
  if k.J = GLFW_RELEASE then { st1 with j := false } else st1

/-- The mode-key part of `void processInput(GLFWwindow* w)` (lines 282–288). -/
def processInput (k : Keys) (st : InputState) : InputState :=
  stepJ k (stepH k (stepG k st))

/-- The state after a sequence of frames, oldest first. -/
def runInput (ks : List Keys) (st : InputState) : InputState :=
  ks.foldl (fun s k => processInput k s) st

/-! ## Auxiliary lemmas -/

lemma fdiv_of_ne_zero (a : α) {b : α} (hb : b ≠ 0) : fdiv a b = some (a / b) := by
  simp [fdiv, hb]

lemma sqrt_eq_of_mul_self {M : MathOps α} (hM : M.Exact) {x y : α} (hy : 0 ≤ y)
    (h : x = y * y) : M.sqrt x = y := by
  have h1 := hM.mul_self_sqrt x (by rw [h]; exact mul_self_nonneg y)
  exact (mul_self_inj (hM.sqrt_nonneg x) hy).1 (h1.trans h)

lemma sqrt_pos_of_pos {M : MathOps α} (hM : M.Exact) {x : α} (hx : 0 < x) :
    0 < M.sqrt x := by
  rcases (hM.sqrt_nonneg x).lt_or_eq with h | h
  · exact h
  · have h1 := hM.mul_self_sqrt x hx.le
    rw [← h] at h1
    simp at h1
    exact absurd h1 hx.ne

lemma le_sqrt_of_mul_self_le {M : MathOps α} (hM : M.Exact) {x y : α}
    (h : y * y ≤ x) : y ≤ M.sqrt x := by
  have hx : 0 ≤ x := le_trans (mul_self_nonneg y) h
  have h1 := hM.mul_self_sqrt x hx
  have h2 := hM.sqrt_nonneg x
  by_contra hlt
  push_neg at hlt
  have : M.sqrt x * M.sqrt x < y * y := mul_self_lt_mul_self h2 hlt
  linarith

lemma clamp_range (x : α) : (0.5 : α) ≤ clamp x 0.5 2 ∧ clamp x 0.5 2 ≤ (2 : α) := by
  unfold clamp
  refine ⟨le_min (le_max_right _ _) (by norm_num), min_le_right _ _⟩

lemma dot_self_pos_of_ne (a b : Vec3 α) (h : a ≠ b) : 0 < dot (a.sub b) (a.sub b) := by
  have hne : a.x - b.x ≠ 0 ∨ a.y - b.y ≠ 0 ∨ a.z - b.z ≠ 0 := by
    by_contra hcon
    push_neg at hcon
    obtain ⟨hx, hy, hz⟩ := hcon
    apply h
    cases a
    cases b
    simp only [sub_eq_zero] at hx hy hz
    simp only [Vec3.mk.injEq]
    exact ⟨hx, hy, hz⟩
  simp only [dot, Vec3.sub]
  have hx := mul_self_nonneg (a.x - b.x)
  have hy := mul_self_nonneg (a.y - b.y)
  have hz := mul_self_nonneg (a.z - b.z)
  rcases hne with h1 | h1 | h1
  · have := mul_self_pos.2 h1
    linarith
  · have := mul_self_pos.2 h1
    linarith
  · have := mul_self_pos.2 h1
    linarith

lemma length_pos_of_ne {M : MathOps α} (hM : M.Exact) (a b : Vec3 α) (h : a ≠ b) :
    0 < length M (a.sub b) :=
  sqrt_pos_of_pos hM (dot_self_pos_of_ne a b h)

lemma calculateLightIntensity_lit {M : MathOps α} (objectPos sunPos : Vec3 α)
    (h : length M (objectPos.sub sunPos) ≠ 0) :
    calculateLightIntensity M objectPos sunPos false
      = some (clamp (200 / length M (objectPos.sub sunPos)) 0.5 2) := by
  simp [calculateLightIntensity, fdiv_of_ne_zero _ h]

lemma real_exact : (MathOps.mk Real.sqrt Real.cos Real.sin).Exact where
  sqrt_nonneg := Real.sqrt_nonneg
  mul_self_sqrt := fun _ hx => Real.mul_self_sqrt hx
  cos_sq_add_sin_sq := fun a => by
    have := Real.cos_sq_add_sin_sq a
    simpa [sq] using this

/-! ## The lighting heuristic -/

/-- C1: `calculateLightIntensity` returns 0.1 whenever `isInShadow` is true, for
every pair of positions; when `isInShadow` is false and the two positions differ
it returns `200 / |objectPos - sunPos|` clamped to `[0.5, 2.0]`, a value in
`[0.5, 2.0]`; distance 1 gives 2.0, distance 100 gives 2.0, distance 400 gives
0.5. -/
theorem calculateLightIntensity_contract (M : MathOps α) (hM : M.Exact)
    (objectPos sunPos : Vec3 α) :
    calculateLightIntensity M objectPos sunPos true = some 0.1 ∧
    calculateLightIntensity M sunPos sunPos true = some 0.1 ∧
    (objectPos ≠ sunPos →
      ∃ v, calculateLightIntensity M objectPos sunPos false = some v ∧
        v = clamp (200 / length M (objectPos.sub sunPos)) 0.5 2 ∧
        0.5 ≤ v ∧ v ≤ 2 ∧
        (length M (objectPos.sub sunPos) = 1 → v = 2) ∧
        (length M (objectPos.sub sunPos) = 100 → v = 2) ∧
        (length M (objectPos.sub sunPos) = 400 → v = 0.5)) := by
  refine ⟨by simp [calculateLightIntensity], by simp [calculateLightIntensity], ?_⟩
  intro hne
  have hpos := length_pos_of_ne hM objectPos sunPos hne
  refine ⟨_, calculateLightIntensity_lit objectPos sunPos hpos.ne', rfl,
    (clamp_range _).1, (clamp_range _).2, ?_, ?_, ?_⟩
  · intro h1
    rw [h1]
    norm_num [clamp]
  · intro h1
    rw [h1]
    norm_num [clamp]
  · intro h1
    rw [h1]
    norm_num [clamp]

/-! ## The frame: branch structure -/

/-- C2: for every mode and all orbital angles (and radii, and light position),
the Earth shadow flag, the Earth tint multiplier and the Moon tint multiplier of a
frame are the row of the specification's branch table selected by the mode and by
the alignment test `dot(toSun, toMoon) > 0.99`, with
`heuristic(p) = calculateLightIntensity(p, sunLightPos, false)`. -/
theorem frame_eq_specTable (M : MathOps α) (mode : Mode)
    (earthOrbitAngle moonOrbitAngle earthOrbitRadius moonOrbitRadius : α)
    (sunLightPos : Vec3 α) :
    let r := frame M ⟨earthOrbitAngle, moonOrbitAngle, earthOrbitRadius, moonOrbitRadius,
      sunLightPos, mode.solar, mode.lunar⟩
    let toSun := normalize M ⟨-r.earthPos.x, 0, -r.earthPos.z⟩
    let toMoon := normalize M ⟨r.moonPos.x - r.earthPos.x, 0, r.moonPos.z - r.earthPos.z⟩
    (r.earthInShadow, r.earthLightMultiplier, r.moonLightMultiplier)
      = specTable mode (decide (dot toSun toMoon > 0.99))
          (calculateLightIntensity M r.earthPos sunLightPos false)
          (calculateLightIntensity M r.moonPos sunLightPos false) := by
  intro r toSun toMoon
  show ((earthLight M _ (decide (dot toSun toMoon > 0.99)) r.earthPos).1,
      (earthLight M _ (decide (dot toSun toMoon > 0.99)) r.earthPos).2,
      moonLight M _ r.moonPos) = _
  generalize decide (dot toSun toMoon > 0.99) = aligned
  cases mode <;> cases aligned <;>
    simp [earthLight, moonLight, specTable, Mode.solar, Mode.lunar]

/-- C5: with ForceSolar active, for all orbital angles the frame places Earth at
`(earthOrbitRadius, 0, 0)` and the Moon at
`(earthOrbitRadius - moonOrbitRadius, 0, 0)`, sets the Earth shadow flag and gives
Earth the tint multiplier 0.1; with radii 200 and 80 the positions are
`(200, 0, 0)` and `(120, 0, 0)`. -/
theorem frame_forceSolar (M : MathOps α) (g : Globals α)
    (hsolar : g.forceSolarEclipse = true) :
    (frame M g).earthPos = ⟨g.earthOrbitRadius, 0, 0⟩ ∧
    (frame M g).moonPos = ⟨g.earthOrbitRadius - g.moonOrbitRadius, 0, 0⟩ ∧
    (frame M g).earthInShadow = true ∧
    (frame M g).earthLightMultiplier = some 0.1 ∧
    (g.earthOrbitRadius = 200 → g.moonOrbitRadius = 80 →
      (frame M g).earthPos = ⟨200, 0, 0⟩ ∧ (frame M g).moonPos = ⟨120, 0, 0⟩) := by
  have hE : (frame M g).earthPos = ⟨g.earthOrbitRadius, 0, 0⟩ := by
    simp [frame, pose, hsolar]
  have hMo : (frame M g).moonPos = ⟨g.earthOrbitRadius - g.moonOrbitRadius, 0, 0⟩ := by
    simp [frame, pose, hsolar]
  refine ⟨hE, hMo, by simp [frame, earthLight, hsolar], by simp [frame, earthLight, hsolar], ?_⟩
  intro hR hr
  rw [hE, hMo, hR, hr]
  norm_num

/-- C4 (amended): in Normal mode, whenever the dot product of the two unit
vectors is strictly greater than 0.99, the frame sets the Earth shadow flag and
gives Earth the tint multiplier 0.1. -/
theorem frame_normal_aligned (M : MathOps α) (g : Globals α)
    (hsolar : g.forceSolarEclipse = false) (hlunar : g.forceLunarEclipse = false)
    (hdot : 0.99 < (frame M g).angle) :
    (frame M g).earthInShadow = true ∧ (frame M g).earthLightMultiplier = some 0.1 := by
  have hnat : (frame M g).isNaturalEclipse = true := by
    simpa [frame] using hdot
  constructor
  · simp only [frame] at hnat ⊢
    simp [earthLight, hsolar, hlunar, hnat]
  · simp only [frame] at hnat ⊢
    simp [earthLight, hsolar, hlunar, hnat]

/-! ## The input handler -/

lemma press_ne_release : GLFW_PRESS ≠ GLFW_RELEASE := by decide


lemma stepG_not_both (k : Keys) (st : InputState)
    (h : ¬ (st.forceSolarEclipse = true ∧ st.forceLunarEclipse = true)) :
    ¬ ((stepG k st).forceSolarEclipse = true ∧ (stepG k st).forceLunarEclipse = true) := by
  unfold stepG
  by_cases hf : solarFires k st = true <;> by_cases hr : k.G = GLFW_RELEASE <;>
    simp [hf, hr] <;> simpa using h

lemma stepH_not_both (k : Keys) (st : InputState)
    (h : ¬ (st.forceSolarEclipse = true ∧ st.forceLunarEclipse = true)) :
    ¬ ((stepH k st).forceSolarEclipse = true ∧ (stepH k st).forceLunarEclipse = true) := by
  unfold stepH
  by_cases hf : (decide (k.H = GLFW_PRESS) && !st.h) = true <;>
    by_cases hr : k.H = GLFW_RELEASE <;>
    simp only [hf, hr, if_true, if_false] <;> simp <;> simpa using h

lemma stepJ_not_both (k : Keys) (st : InputState)
    (h : ¬ (st.forceSolarEclipse = true ∧ st.forceLunarEclipse = true)) :
    ¬ ((stepJ k st).forceSolarEclipse = true ∧ (stepJ k st).forceLunarEclipse = true) := by
  unfold stepJ
  by_cases hf : (decide (k.J = GLFW_PRESS) && !st.j) = true <;>
    by_cases hr : k.J = GLFW_RELEASE <;>
    simp only [hf, hr, if_true, if_false] <;> simp <;> simpa using h

lemma processInput_not_both (k : Keys) (st : InputState)
    (h : ¬ (st.forceSolarEclipse = true ∧ st.forceLunarEclipse = true)) :
    ¬ ((processInput k st).forceSolarEclipse = true ∧
        (processInput k st).forceLunarEclipse = true) :=
  stepJ_not_both k _ (stepH_not_both k _ (stepG_not_both k st h))

lemma runInput_not_both (ks : List Keys) (st : InputState)
    (h : ¬ (st.forceSolarEclipse = true ∧ st.forceLunarEclipse = true)) :
    ¬ ((runInput ks st).forceSolarEclipse = true ∧
        (runInput ks st).forceLunarEclipse = true) := by
  induction ks generalizing st with
  | nil => exact h
  | cons k ks ih => exact ih _ (processInput_not_both k st h)

lemma mode_of_not_both (a b : Bool) (h : ¬ (a = true ∧ b = true)) :
    ∃! mode : Mode, mode.solar = a ∧ mode.lunar = b := by
  cases a <;> cases b
  · exact ⟨Mode.Normal, ⟨rfl, rfl⟩,
      fun m hm => by cases m <;> simp_all [Mode.solar, Mode.lunar]⟩
  · exact ⟨Mode.ForceLunar, ⟨rfl, rfl⟩,
      fun m hm => by cases m <;> simp_all [Mode.solar, Mode.lunar]⟩
  · exact ⟨Mode.ForceSolar, ⟨rfl, rfl⟩,
      fun m hm => by cases m <;> simp_all [Mode.solar, Mode.lunar]⟩
  · exact absurd ⟨rfl, rfl⟩ h

/-- C9: from the initial state, after any sequence of `processInput` calls with
arbitrary per-frame G/H/J key states, `forceSolarEclipse` and `forceLunarEclipse`
are not both true, and the two flags denote exactly one of the modes Normal,
ForceSolar, ForceLunar. -/
theorem runInput_mode_exclusive (ks : List Keys) :
    ¬ ((runInput ks InputState.initial).forceSolarEclipse = true ∧
        (runInput ks InputState.initial).forceLunarEclipse = true) ∧
    ∃! mode : Mode, mode.solar = (runInput ks InputState.initial).forceSolarEclipse ∧
      mode.lunar = (runInput ks InputState.initial).forceLunarEclipse := by
  have h := runInput_not_both ks InputState.initial (by simp [InputState.initial])
  exact ⟨h, mode_of_not_both _ _ h⟩

lemma stepG_latch (k : Keys) (st : InputState) (hk : k.G = GLFW_PRESS) :
    (stepG k st).g = true := by
  unfold stepG
  cases hg : st.g <;> simp [solarFires, hk, hg, press_ne_release]

lemma stepH_g (k : Keys) (st : InputState) : (stepH k st).g = st.g := by
  simp only [stepH]
  split_ifs <;> rfl

lemma stepJ_g (k : Keys) (st : InputState) : (stepJ k st).g = st.g := by
  simp only [stepJ]
  split_ifs <;> rfl

lemma processInput_latch (k : Keys) (st : InputState) (hk : k.G = GLFW_PRESS) :
    (processInput k st).g = true := by
  unfold processInput
  rw [stepJ_g, stepH_g, stepG_latch k st hk]

lemma runInput_latch (ks : List Keys) (st : InputState) (hne : ks ≠ [])
    (hheld : ∀ k ∈ ks, k.G = GLFW_PRESS) : (runInput ks st).g = true := by
  induction ks generalizing st with
  | nil => exact absurd rfl hne
  | cons k ks ih =>
    have hk : k.G = GLFW_PRESS := hheld k (List.mem_cons_self _ _)
    by_cases hks : ks = []
    · subst hks
      exact processInput_latch k st hk
    · exact ih (processInput k st) hks (fun k' hk' => hheld k' (List.mem_cons_of_mem _ hk'))

lemma stepG_idle (k : Keys) (st : InputState) (hk : k.G = GLFW_PRESS) (hg : st.g = true) :
    stepG k st = st := by
  unfold stepG
  simp [solarFires, hk, hg, press_ne_release]

lemma take_latch (st0 : InputState) (ks : List Keys) (hheld : ∀ k ∈ ks, k.G = GLFW_PRESS)
    (i : ℕ) (hi : 0 < i) (hlt : i < ks.length) : (runInput (ks.take i) st0).g = true := by
  apply runInput_latch
  · intro h
    rcases List.take_eq_nil_iff.1 h with h0 | h0
    · omega
    · subst h0
      simp at hlt
  · intro k hk
    exact hheld k (List.mem_of_mem_take hk)

lemma stepG_fires_flags (k : Keys) (st : InputState) (hk : k.G = GLFW_PRESS)
    (hg : st.g = false) :
    (stepG k st).forceSolarEclipse = true ∧ (stepG k st).forceLunarEclipse = false := by
  unfold stepG
  simp [solarFires, hk, hg, press_ne_release]

lemma stepH_idle_flags (k : Keys) (st : InputState) (hk : k.H ≠ GLFW_PRESS) :
    (stepH k st).forceSolarEclipse = st.forceSolarEclipse ∧
    (stepH k st).forceLunarEclipse = st.forceLunarEclipse := by
  have hf : ¬ (decide (k.H = GLFW_PRESS) && !st.h) = true := by simp [hk]
  simp only [stepH, if_neg hf]
  split_ifs <;> exact ⟨rfl, rfl⟩

lemma stepJ_idle_flags (k : Keys) (st : InputState) (hk : k.J ≠ GLFW_PRESS) :
    (stepJ k st).forceSolarEclipse = st.forceSolarEclipse ∧
    (stepJ k st).forceLunarEclipse = st.forceLunarEclipse := by
  have hf : ¬ (decide (k.J = GLFW_PRESS) && !st.j) = true := by simp [hk]
  simp only [stepJ, if_neg hf]
  split_ifs <;> exact ⟨rfl, rfl⟩

lemma processInput_idle_flags (k : Keys) (st : InputState) (hG : k.G = GLFW_PRESS)
    (hg : st.g = true) (hH : k.H ≠ GLFW_PRESS) (hJ : k.J ≠ GLFW_PRESS) :
    (processInput k st).forceSolarEclipse = st.forceSolarEclipse ∧
    (processInput k st).forceLunarEclipse = st.forceLunarEclipse := by
  unfold processInput
  rw [stepG_idle k st hG hg]
  have h1 := stepH_idle_flags k st hH
  have h2 := stepJ_idle_flags k (stepH k st) hJ
  exact ⟨h2.1.trans h1.1, h2.2.trans h1.2⟩

lemma processInput_fire_flags (k : Keys) (st : InputState) (hG : k.G = GLFW_PRESS)
    (hg : st.g = false) (hH : k.H ≠ GLFW_PRESS) (hJ : k.J ≠ GLFW_PRESS) :
    (processInput k st).forceSolarEclipse = true ∧
    (processInput k st).forceLunarEclipse = false := by
  unfold processInput
  have h0 := stepG_fires_flags k st hG hg
  have h1 := stepH_idle_flags k (stepG k st) hH
  have h2 := stepJ_idle_flags k (stepH k (stepG k st)) hJ
  exact ⟨h2.1.trans (h1.1.trans h0.1), h2.2.trans (h1.2.trans h0.2)⟩

lemma runInput_hold_flags (ks : List Keys) (st : InputState)
    (hheld : ∀ k ∈ ks, k.G = GLFW_PRESS)
    (hidle : ∀ k ∈ ks, k.H ≠ GLFW_PRESS ∧ k.J ≠ GLFW_PRESS) (hg : st.g = true) :
    (runInput ks st).forceSolarEclipse = st.forceSolarEclipse ∧
    (runInput ks st).forceLunarEclipse = st.forceLunarEclipse := by
  induction ks generalizing st with
  | nil => exact ⟨rfl, rfl⟩
  | cons k ks ih =>
    have hk := hheld k (List.mem_cons_self _ _)
    have hi := hidle k (List.mem_cons_self _ _)
    have h1 := processInput_idle_flags k st hk hg hi.1 hi.2
    have h2 := ih (processInput k st) (fun k' hk' => hheld k' (List.mem_cons_of_mem _ hk'))
      (fun k' hk' => hidle k' (List.mem_cons_of_mem _ hk')) (processInput_latch k st hk)
    exact ⟨h2.1.trans h1.1, h2.2.trans h1.2⟩

/-- C10: over a run of consecutive frames `ks` in all of which G is reported
pressed, entered in state `st0`: the solar-force action fires in the first frame
exactly when G's latch is false there, and then sets `forceSolarEclipse := true`,
`forceLunarEclipse := false`; in no later frame does it fire, and in every later
frame the G lines leave the state untouched, so the frame's result is that of the
H and J lines alone; and from Normal with the latch clear, holding G with H and J
not pressed ends in ForceSolar. -/
theorem solarForce_fires_once (st0 : InputState) (ks : List Keys)
    (hheld : ∀ k ∈ ks, k.G = GLFW_PRESS) :
    (∀ k, ks[0]? = some k →
      (solarFires k st0 = true ↔ st0.g = false) ∧
      (st0.g = false →
        (stepG k st0).forceSolarEclipse = true ∧ (stepG k st0).forceLunarEclipse = false)) ∧
    (∀ i k, 0 < i → ks[i]? = some k →
      solarFires k (runInput (ks.take i) st0) = false ∧
      stepG k (runInput (ks.take i) st0) = runInput (ks.take i) st0 ∧
      processInput k (runInput (ks.take i) st0)
        = stepJ k (stepH k (runInput (ks.take i) st0))) ∧
    (st0.forceSolarEclipse = false → st0.forceLunarEclipse = false → st0.g = false →
      ks ≠ [] → (∀ k ∈ ks, k.H ≠ GLFW_PRESS ∧ k.J ≠ GLFW_PRESS) →
      (runInput ks st0).forceSolarEclipse = true ∧
      (runInput ks st0).forceLunarEclipse = false) := by
  refine ⟨?_, ?_, ?_⟩
  · intro k hk
    have hmem : k ∈ ks := List.getElem?_mem hk
    have hG := hheld k hmem
    refine ⟨?_, fun hg => stepG_fires_flags k st0 hG hg⟩
    cases hg : st0.g <;> simp [solarFires, hG, hg]
  · intro i k hi hk
    have hmem : k ∈ ks := List.getElem?_mem hk
    have hG := hheld k hmem
    have hlt : i < ks.length := by
      by_contra hcon
      rw [List.getElem?_eq_none (by omega)] at hk
      cases hk
    have hlatch := take_latch st0 ks hheld i hi hlt
    have hidle := stepG_idle k _ hG hlatch
    refine ⟨by simp [solarFires, hlatch], hidle, ?_⟩
    unfold processInput
    rw [hidle]
  · intro _ _ hg hne hidle
    cases ks with
    | nil => exact absurd rfl hne
    | cons k ks =>
      have hk := hheld k (List.mem_cons_self _ _)
      have hi := hidle k (List.mem_cons_self _ _)
      have h1 := processInput_fire_flags k st0 hk hg hi.1 hi.2
      have h2 := runInput_hold_flags ks (processInput k st0)
        (fun k' hk' => hheld k' (List.mem_cons_of_mem _ hk'))
        (fun k' hk' => hidle k' (List.mem_cons_of_mem _ hk')) (processInput_latch k st0 hk)
      exact ⟨h2.1.trans h1.1, h2.2.trans h1.2⟩

/-! ## The orbit generator -/

lemma circlePoint_eq (M : MathOps α) (r : α) (s : ℤ) (hs : 1 ≤ s) (i : ℤ) :
    circlePoint M r s i = some (circleVertex M r s i) := by
  have hs0 : (s : α) ≠ 0 := Int.cast_ne_zero.2 (by omega)
  simp [circlePoint, circleVertex, fdiv_of_ne_zero _ hs0]

/-- Entered at counter `i` with `n` counter values left up to `s`, and `s` below
`INT_MAX`, the loop appends the `n` points for `i, i + 1, …, s` and exits. -/
lemma createCircleLoop_eq (M : MathOps α) (r : α) (s : ℤ) (hs : 1 ≤ s)
    (hmax : s < INT_MAX) (n : ℕ) :
    ∀ (i : ℕ) (p : List (Vec3 α)), (i : ℤ) + n = s + 1 →
      createCircleLoop M r s i p
        = some (p ++ (List.range' i n).map (fun k : ℕ => circleVertex M r s (k : ℤ))) := by
  induction n with
  | zero =>
    intro i p hi
    rw [createCircleLoop, if_neg (by omega)]
    simp
  | succ n ih =>
    intro i p hi
    rw [createCircleLoop, if_pos (by omega), circlePoint_eq M r s hs]
    simp only
    rw [if_pos (by omega)]
    have hnext := ih (i + 1) (p ++ [circleVertex M r s (i : ℤ)]) (by push_cast; omega)
    rw [show ((i : ℤ) + 1) = ((i + 1 : ℕ) : ℤ) by push_cast; rfl, hnext]
    simp [List.range'_succ]

lemma createCircle_eq (M : MathOps α) (r : α) (s : ℤ) (hs : 1 ≤ s) (hmax : s < INT_MAX) :
    createCircle M r s
      = some ((List.range (s + 1).toNat).map (fun k : ℕ => circleVertex M r s (k : ℤ))) := by
  have h := createCircleLoop_eq M r s hs hmax (s + 1).toNat 0 [] (by push_cast; omega)
  rw [createCircle]
  simpa [List.range_eq_range'] using h

/-- With `s = INT_MAX` the exit test `i <= s` holds for every counter value, so
the loop runs until the increment overflows: no entry point yields a result. -/
lemma createCircleLoop_overflow (M : MathOps α) (r : α) (n : ℕ) :
    ∀ (i : ℤ) (p : List (Vec3 α)), i ≤ INT_MAX → (INT_MAX - i).toNat = n →
      createCircleLoop M r INT_MAX i p = none := by
  induction n with
  | zero =>
    intro i p hi hn
    rw [createCircleLoop, if_pos hi]
    cases circlePoint M r INT_MAX i with
    | none => rfl
    | some v =>
      simp only
      rw [if_neg (by omega)]
  | succ n ih =>
    intro i p hi hn
    rw [createCircleLoop, if_pos hi]
    cases circlePoint M r INT_MAX i with
    | none => rfl
    | some v =>
      simp only
      rw [if_pos (by omega)]
      exact ih (i + 1) _ (by omega) (by omega)

lemma createCircle_ends (M : MathOps α) (r : α) (s : ℤ) (hs : 1 ≤ s) (hmax : s < INT_MAX) :
    ∃ pts, createCircle M r s = some pts ∧
      pts.head? = some ⟨M.cos 0 * r, 0, M.sin 0 * r⟩ ∧
      pts.getLast? = some ⟨M.cos (2 * 3.14159) * r, 0, M.sin (2 * 3.14159) * r⟩ := by
  refine ⟨_, createCircle_eq M r s hs hmax, ?_, ?_⟩
  · obtain ⟨n, hn⟩ : ∃ n : ℕ, (s + 1).toNat = n + 1 := ⟨s.toNat, by omega⟩
    rw [hn, List.range_succ_eq_map]
    simp [circleVertex]
  · obtain ⟨n, hn⟩ : ∃ n : ℕ, s = (n : ℤ) := ⟨s.toNat, by omega⟩
    have hn1 : (s + 1).toNat = n + 1 := by omega
    have hn0 : (((n : ℤ)) : α) ≠ 0 := by
      have : (n : ℤ) ≠ 0 := by omega
      exact_mod_cast this
    rw [hn1, List.range_succ, List.map_append]
    simp only [List.map_cons, List.map_nil, List.getLast?_append, List.getLast?_singleton,
      circleVertex, hn]
    rw [mul_div_assoc, div_self hn0, mul_one]
    rfl

/-- C8 (amended): for every radius `r > 0` and every segment count `s` with
`1 ≤ s < INT_MAX = 2^31 − 1`, `createCircle(r, s)` returns exactly `s + 1`
points. -/
theorem createCircle_length (M : MathOps α) (r : α) (s : ℤ) (_hr : 0 < r) (hs : 1 ≤ s)
    (hmax : s < INT_MAX) :
    ∃ pts, createCircle M r s = some pts ∧ (pts.length : ℤ) = s + 1 := by
  refine ⟨_, createCircle_eq M r s hs hmax, ?_⟩
  rw [List.length_map, List.length_range]
  omega

/-- C8 (as stated, refuted): at `s = 2147483647 = INT_MAX`, a segment count
`≥ 1` of type `int`, the test `i <= s` never fails and `i++` overflows after the
point for `i = INT_MAX`: `createCircle(200, s)` has no result, so it does not
return `s + 1` points. -/
theorem createCircle_int_max_no_result :
    createCircle (MathOps.mk Real.sqrt Real.cos Real.sin) 200 2147483647 = none ∧
    ¬ ∃ pts, createCircle (MathOps.mk Real.sqrt Real.cos Real.sin) 200 2147483647 = some pts ∧
      (pts.length : ℤ) = 2147483647 + 1 := by
  have h : createCircle (MathOps.mk Real.sqrt Real.cos Real.sin) 200 2147483647 = none :=
    createCircleLoop_overflow _ 200 (INT_MAX - 0).toNat 0 []
      (by norm_num [INT_MAX]) rfl
  refine ⟨h, ?_⟩
  rintro ⟨pts, hpts, -⟩
  rw [h] at hpts
  cases hpts

lemma real_sin_two_approx_pi_neg : Real.sin (2 * 3.14159) < 0 := by
  have h1 := Real.pi_gt_d6
  have h2 := Real.pi_lt_d2
  rw [← Real.sin_sub_two_pi]
  apply Real.sin_neg_of_neg_of_neg_pi_lt <;> linarith

/-- C7 (defect): for `createCircle(200, 100)`, the program's only call, over the
exact real routines: the first point is `(200, 0, 0)`, the last point is
`(200·cos 6.28318, 0, 200·sin 6.28318)` with a negative z-coordinate, so the
first and the last point differ. -/
theorem createCircle_not_closed :
    ∃ pts, createCircle (MathOps.mk Real.sqrt Real.cos Real.sin) 200 100 = some pts ∧
      pts.head? = some ⟨200, 0, 0⟩ ∧
      pts.getLast? = some ⟨Real.cos (2 * 3.14159) * 200, 0, Real.sin (2 * 3.14159) * 200⟩ ∧
      Real.sin (2 * 3.14159) * 200 < 0 ∧
      pts.head? ≠ pts.getLast? := by
  obtain ⟨pts, hpts, hhead, hlast⟩ :=
    createCircle_ends (MathOps.mk Real.sqrt Real.cos Real.sin) 200 100 (by norm_num)
      (by norm_num [INT_MAX])
  have hneg : Real.sin (2 * 3.14159) * 200 < 0 := by
    have := real_sin_two_approx_pi_neg
    linarith
  have hhead' : pts.head? = some (⟨200, 0, 0⟩ : Vec3 ℝ) := by
    rw [hhead]
    simp
  refine ⟨pts, hpts, hhead', hlast, hneg, ?_⟩
  rw [hhead', hlast]
  intro h
  have hz := congrArg Vec3.z (Option.some.inj h)
  simp only at hz
  linarith

/-! ## The frame: geometry under the exact routines -/

lemma length_sub_origin {M : MathOps α} (hM : M.Exact) (x z d : α) (hd : 0 ≤ d)
    (h : x * x + z * z = d * d) :
    length M (Vec3.sub ⟨x, 0, z⟩ ⟨0, 0, 0⟩) = d := by
  unfold length
  apply sqrt_eq_of_mul_self hM hd
  simp only [dot, Vec3.sub, sub_zero, mul_zero, add_zero]
  exact h

lemma le_length_sub_origin {M : MathOps α} (hM : M.Exact) (x z d : α)
    (h : d * d ≤ x * x + z * z) :
    d ≤ length M (Vec3.sub ⟨x, 0, z⟩ ⟨0, 0, 0⟩) := by
  unfold length
  apply le_sqrt_of_mul_self_le hM
  simp only [dot, Vec3.sub, sub_zero, mul_zero, add_zero]
  exact h

lemma ne_of_length_pos {M : MathOps α} (hM : M.Exact) (a b : Vec3 α)
    (h : 0 < length M (a.sub b)) : a ≠ b := by
  intro hab
  subst hab
  have h0 : length M (a.sub a) = 0 := by
    unfold length
    apply sqrt_eq_of_mul_self hM le_rfl
    simp [dot, Vec3.sub]
  rw [h0] at h
  exact lt_irrefl _ h

lemma normalize_xz {M : MathOps α} (hM : M.Exact) (x z d : α) (hd : 0 ≤ d)
    (h : x * x + z * z = d * d) :
    normalize M ⟨x, 0, z⟩ = ⟨x * (1 / d), 0 * (1 / d), z * (1 / d)⟩ := by
  have hs : M.sqrt (dot (⟨x, 0, z⟩ : Vec3 α) ⟨x, 0, z⟩) = d := by
    apply sqrt_eq_of_mul_self hM hd
    simp only [dot, mul_zero, add_zero]
    exact h
  simp only [normalize, Vec3.scale, hs]

lemma earthLight_isSome (M : MathOps α) (g : Globals α) (b : Bool) (earthPos : Vec3 α)
    (h : length M (earthPos.sub g.sunLightPos) ≠ 0) :
    (earthLight M g b earthPos).2.isSome = true := by
  simp only [earthLight, calculateLightIntensity_lit earthPos g.sunLightPos h]
  split_ifs <;> rfl

lemma moonLight_isSome (M : MathOps α) (g : Globals α) (moonPos : Vec3 α)
    (h : length M (moonPos.sub g.sunLightPos) ≠ 0) :
    (moonLight M g moonPos).isSome = true := by
  simp only [moonLight, calculateLightIntensity_lit moonPos g.sunLightPos h]
  split_ifs <;> rfl

lemma cos_mul_cos_add_sin_mul_sin_ge {M : MathOps α} (hM : M.Exact) (a b : α) :
    -1 ≤ M.cos a * M.cos b + M.sin a * M.sin b := by
  have h1 := hM.cos_sq_add_sin_sq a
  have h2 := hM.cos_sq_add_sin_sq b
  nlinarith [mul_self_nonneg (M.cos a + M.cos b), mul_self_nonneg (M.sin a + M.sin b)]

/-- Positions computed by a frame with the program's radii: Earth on the circle of
radius 200, Moon at squared distance at least `120²` from the origin. -/
lemma frame_positions {M : MathOps α} (hM : M.Exact) (e m : α) (fs fl : Bool) :
    ∃ x z x' z', (frame M ⟨e, m, 200, 80, ⟨0, 0, 0⟩, fs, fl⟩).earthPos = ⟨x, 0, z⟩ ∧
      (frame M ⟨e, m, 200, 80, ⟨0, 0, 0⟩, fs, fl⟩).moonPos = ⟨x', 0, z'⟩ ∧
      x * x + z * z = 200 * 200 ∧ 120 * 120 ≤ x' * x' + z' * z' := by
  refine ⟨_, _, _, _, rfl, rfl, ?_, ?_⟩
  · cases fs <;> cases fl <;> simp only [pose, if_true, if_false, Bool.false_eq_true]
    · have h1 := hM.cos_sq_add_sin_sq e
      linear_combination 40000 * h1
    all_goals norm_num
  · cases fs <;> cases fl <;> simp only [pose, if_true, if_false, Bool.false_eq_true]
    · have h1 := hM.cos_sq_add_sin_sq e
      have h2 := hM.cos_sq_add_sin_sq m
      have h3 := cos_mul_cos_add_sin_mul_sin_ge hM e m
      nlinarith
    all_goals norm_num

/-- C6: with the program's radii (200 and 80) and the light at the origin, in
every mode and for all orbital angles, the two positions a frame passes to
`calculateLightIntensity` differ from the light position (Earth at distance 200,
Moon at distance at least 120), a call with `isInShadow = false` on either of
them has a value, and so have both tint multipliers: no call divides by zero. -/
theorem frame_never_divides_by_zero (M : MathOps α) (hM : M.Exact) (e m : α)
    (forceSolar forceLunar : Bool) :
    let g : Globals α := ⟨e, m, 200, 80, ⟨0, 0, 0⟩, forceSolar, forceLunar⟩
    (frame M g).earthPos ≠ g.sunLightPos ∧
    (frame M g).moonPos ≠ g.sunLightPos ∧
    length M ((frame M g).earthPos.sub g.sunLightPos) = 200 ∧
    120 ≤ length M ((frame M g).moonPos.sub g.sunLightPos) ∧
    (calculateLightIntensity M (frame M g).earthPos g.sunLightPos false).isSome = true ∧
    (calculateLightIntensity M (frame M g).moonPos g.sunLightPos false).isSome = true ∧
    (frame M g).earthLightMultiplier.isSome = true ∧
    (frame M g).moonLightMultiplier.isSome = true := by
  intro g
  obtain ⟨x, z, x', z', hE, hMo, hx, hx'⟩ := frame_positions hM e m forceSolar forceLunar
  have hlenE : length M ((frame M g).earthPos.sub g.sunLightPos) = 200 := by
    rw [show (frame M g).earthPos = ⟨x, 0, z⟩ from hE]
    exact length_sub_origin hM x z 200 (by norm_num) hx
  have hlenM : 120 ≤ length M ((frame M g).moonPos.sub g.sunLightPos) := by
    rw [show (frame M g).moonPos = ⟨x', 0, z'⟩ from hMo]
    exact le_length_sub_origin hM x' z' 120 hx'
  have hposE : 0 < length M ((frame M g).earthPos.sub g.sunLightPos) := by
    rw [hlenE]
    norm_num
  have hposM : 0 < length M ((frame M g).moonPos.sub g.sunLightPos) :=
    lt_of_lt_of_le (by norm_num) hlenM
  refine ⟨ne_of_length_pos hM _ _ hposE, ne_of_length_pos hM _ _ hposM, hlenE, hlenM,
    ?_, ?_, earthLight_isSome M g _ _ hposE.ne', moonLight_isSome M g _ hposM.ne'⟩
  · rw [calculateLightIntensity_lit _ _ hposE.ne']
    rfl
  · rw [calculateLightIntensity_lit _ _ hposM.ne']
    rfl

/-! ## The frame: forced lunar pose and the alignment threshold -/

lemma heuristic_at_200 {M : MathOps α} (hM : M.Exact) (x z : α)
    (h : x * x + z * z = 200 * 200) :
    calculateLightIntensity M ⟨x, 0, z⟩ ⟨0, 0, 0⟩ false = some 1 := by
  have hlen := length_sub_origin hM x z 200 (by norm_num) h
  rw [calculateLightIntensity_lit _ _ (by rw [hlen]; norm_num), hlen]
  norm_num [clamp]

/-- In the forced lunar pose with the program's radii the two unit vectors are
opposite. -/
lemma frame_forceLunar_angle {M : MathOps α} (hM : M.Exact) (e m : α) :
    (frame M ⟨e, m, 200, 80, ⟨0, 0, 0⟩, false, true⟩).angle = -1 := by
  simp only [frame, pose, if_true, if_false, Bool.false_eq_true]
  rw [normalize_xz hM (-200) (-0) 200 (by norm_num) (by norm_num),
    normalize_xz hM (200 + 80 - 200) (0 - 0) 80 (by norm_num) (by norm_num)]
  simp only [dot]
  norm_num

lemma frame_forceLunar_not_natural {M : MathOps α} (hM : M.Exact) (e m : α) :
    (frame M ⟨e, m, 200, 80, ⟨0, 0, 0⟩, false, true⟩).isNaturalEclipse = false := by
  have h : ¬ (frame M ⟨e, m, 200, 80, ⟨0, 0, 0⟩, false, true⟩).angle > 0.99 := by
    rw [frame_forceLunar_angle hM e m]
    norm_num
  simpa [frame] using h

/-- In the forced lunar pose with the program's radii Earth takes the heuristic
value at distance 200. -/
lemma frame_forceLunar_earthLight {M : MathOps α} (hM : M.Exact) (e m : α) :
    (frame M ⟨e, m, 200, 80, ⟨0, 0, 0⟩, false, true⟩).earthInShadow = false ∧
    (frame M ⟨e, m, 200, 80, ⟨0, 0, 0⟩, false, true⟩).earthLightMultiplier = some 1 := by
  have hnat := frame_forceLunar_not_natural hM e m
  have hE : (frame M ⟨e, m, 200, 80, ⟨0, 0, 0⟩, false, true⟩).earthPos = ⟨200, 0, 0⟩ := by
    simp [frame, pose]
  constructor
  · simp only [frame] at hnat ⊢
    simp [earthLight, hnat]
  · simp only [frame] at hnat hE ⊢
    simp only [earthLight, hnat, if_true, if_false, Bool.false_eq_true]
    rw [hE]
    exact heuristic_at_200 hM 200 0 (by norm_num)

/-- C3 (amended): with radii 200 and 80, the light at the origin and ForceLunar
active, Earth is at `(200, 0, 0)` and the Moon at `(280, 0, 0)`; the two unit
vectors are opposite (dot product −1), so the alignment test fails: the Earth
shadow flag is false and the Earth tint multiplier is the heuristic value
`200/200 = 1.0`; the Moon tint multiplier is 0.1. -/
theorem frame_forceLunar_default (M : MathOps α) (hM : M.Exact) (e m : α) :
    (frame M ⟨e, m, 200, 80, ⟨0, 0, 0⟩, false, true⟩).earthPos = ⟨200, 0, 0⟩ ∧
    (frame M ⟨e, m, 200, 80, ⟨0, 0, 0⟩, false, true⟩).moonPos = ⟨280, 0, 0⟩ ∧
    (frame M ⟨e, m, 200, 80, ⟨0, 0, 0⟩, false, true⟩).angle = -1 ∧
    (frame M ⟨e, m, 200, 80, ⟨0, 0, 0⟩, false, true⟩).earthInShadow = false ∧
    (frame M ⟨e, m, 200, 80, ⟨0, 0, 0⟩, false, true⟩).earthLightMultiplier = some 1 ∧
    (frame M ⟨e, m, 200, 80, ⟨0, 0, 0⟩, false, true⟩).moonLightMultiplier = some 0.1 := by
  refine ⟨?_, ?_, frame_forceLunar_angle hM e m, (frame_forceLunar_earthLight hM e m).1,
    (frame_forceLunar_earthLight hM e m).2, ?_⟩
  · simp [frame, pose]
  · simp only [frame, pose, if_true, if_false, Bool.false_eq_true]
    norm_num
  · simp [frame, moonLight]

/-- C3 (as stated, refuted): in the program's initial scene with ForceLunar
active, over the exact real routines, the Earth tint multiplier is 1, so the two
multipliers are not both 0.1. -/
theorem frame_forceLunar_earth_not_dark :
    (frame (MathOps.mk Real.sqrt Real.cos Real.sin)
      { Globals.initial with forceLunarEclipse := true }).earthLightMultiplier = some 1 ∧
    ¬ ((frame (MathOps.mk Real.sqrt Real.cos Real.sin)
          { Globals.initial with forceLunarEclipse := true }).earthLightMultiplier
            = some 0.1 ∧
        (frame (MathOps.mk Real.sqrt Real.cos Real.sin)
          { Globals.initial with forceLunarEclipse := true }).moonLightMultiplier
            = some 0.1) := by
  have h : (frame (MathOps.mk Real.sqrt Real.cos Real.sin)
      { Globals.initial with forceLunarEclipse := true }).earthLightMultiplier = some 1 :=
    (frame_forceLunar_earthLight real_exact (0 : ℝ) 0).2
  refine ⟨h, ?_⟩
  rw [h]
  rintro ⟨h1, -⟩
  have h2 := Option.some.inj h1
  norm_num at h2

/-- The frame in Normal mode with the program's radii: the alignment value, and
the Earth values when the alignment test fails. -/
lemma frame_normal_values {M : MathOps α} (hM : M.Exact) (e m : α) :
    (frame M ⟨e, m, 200, 80, ⟨0, 0, 0⟩, false, false⟩).angle
      = -(M.cos e * M.cos m + M.sin e * M.sin m) ∧
    (¬ (frame M ⟨e, m, 200, 80, ⟨0, 0, 0⟩, false, false⟩).angle > 0.99 →
      (frame M ⟨e, m, 200, 80, ⟨0, 0, 0⟩, false, false⟩).earthInShadow = false ∧
      (frame M ⟨e, m, 200, 80, ⟨0, 0, 0⟩, false, false⟩).earthLightMultiplier = some 1) := by
  have h1 := hM.cos_sq_add_sin_sq e
  have h2 := hM.cos_sq_add_sin_sq m
  constructor
  · simp only [frame, pose, if_true, if_false, Bool.false_eq_true]
    rw [normalize_xz hM (-(200 * M.cos e)) (-(200 * M.sin e)) 200 (by norm_num)
        (by linear_combination 40000 * h1),
      normalize_xz hM (200 * M.cos e + 80 * M.cos m - 200 * M.cos e)
        (200 * M.sin e + 80 * M.sin m - 200 * M.sin e) 80 (by norm_num)
        (by linear_combination 6400 * h2)]
    simp only [dot]
    ring
  · intro hnot
    have hnat :
        (frame M ⟨e, m, 200, 80, ⟨0, 0, 0⟩, false, false⟩).isNaturalEclipse = false := by
      simpa [frame] using hnot
    constructor
    · simp only [frame] at hnat ⊢
      simp [earthLight, hnat]
    · simp only [frame] at hnat ⊢
      simp only [earthLight, hnat, if_true, if_false, Bool.false_eq_true]
      simp only [pose, if_true, if_false, Bool.false_eq_true]
      exact heuristic_at_200 hM _ _ (by linear_combination 40000 * h1)

lemma real_cos_arccos : Real.cos (Real.arccos (-0.99)) = -0.99 :=
  Real.cos_arccos (by norm_num) (by norm_num)

/-- C4 (as stated, refuted): in Normal mode at `earthOrbitAngle = 0` and
`moonOrbitAngle = arccos(−0.99)`, over the exact real routines, the dot product is
exactly 0.99 (so `≥ 0.99` holds), yet the Earth shadow flag is false and the Earth
tint multiplier is 1, not 0.1. -/
theorem frame_normal_boundary_not_shadowed :
    (0.99 : ℝ) ≤ (frame (MathOps.mk Real.sqrt Real.cos Real.sin)
      ⟨0, Real.arccos (-0.99), 200, 80, ⟨0, 0, 0⟩, false, false⟩).angle ∧
    (frame (MathOps.mk Real.sqrt Real.cos Real.sin)
      ⟨0, Real.arccos (-0.99), 200, 80, ⟨0, 0, 0⟩, false, false⟩).earthInShadow = false ∧
    (frame (MathOps.mk Real.sqrt Real.cos Real.sin)
      ⟨0, Real.arccos (-0.99), 200, 80, ⟨0, 0, 0⟩, false, false⟩).earthLightMultiplier
        = some 1 ∧
    ¬ ((frame (MathOps.mk Real.sqrt Real.cos Real.sin)
          ⟨0, Real.arccos (-0.99), 200, 80, ⟨0, 0, 0⟩, false, false⟩).earthInShadow = true ∧
        (frame (MathOps.mk Real.sqrt Real.cos Real.sin)
          ⟨0, Real.arccos (-0.99), 200, 80, ⟨0, 0, 0⟩, false, false⟩).earthLightMultiplier
            = some 0.1) := by
  obtain ⟨hangle, hrest⟩ := frame_normal_values real_exact (0 : ℝ) (Real.arccos (-0.99))
  have hval : (frame (MathOps.mk Real.sqrt Real.cos Real.sin)
      ⟨0, Real.arccos (-0.99), 200, 80, ⟨0, 0, 0⟩, false, false⟩).angle = 0.99 := by
    rw [hangle]
    simp only [Real.cos_zero, Real.sin_zero, real_cos_arccos]
    norm_num
  obtain ⟨hshadow, hmult⟩ := hrest (by rw [hval]; norm_num)
  refine ⟨hval.ge, hshadow, hmult, ?_⟩
  rw [hshadow]
  rintro ⟨h1, -⟩
  cases h1

/-! ## Instances over the exact real routines -/

lemma vec3_x_ne (a b : Vec3 ℝ) (h : a.x ≠ b.x) : a ≠ b :=
  fun hab => h (congrArg Vec3.x hab)

/-- C1 at concrete inputs: coincident positions in shadow give 0.1; an object at
distance 1, 100 and 400 from a light at the origin gives 2, 2 and 0.5. -/
theorem calculateLightIntensity_contract_witness :
    (MathOps.mk Real.sqrt Real.cos Real.sin).Exact ∧
    calculateLightIntensity (MathOps.mk Real.sqrt Real.cos Real.sin)
      ⟨0, 0, 0⟩ ⟨0, 0, 0⟩ true = some 0.1 ∧
    calculateLightIntensity (MathOps.mk Real.sqrt Real.cos Real.sin)
      ⟨1, 0, 0⟩ ⟨0, 0, 0⟩ false = some 2 ∧
    calculateLightIntensity (MathOps.mk Real.sqrt Real.cos Real.sin)
      ⟨100, 0, 0⟩ ⟨0, 0, 0⟩ false = some 2 ∧
    calculateLightIntensity (MathOps.mk Real.sqrt Real.cos Real.sin)
      ⟨400, 0, 0⟩ ⟨0, 0, 0⟩ false = some 0.5 := by
  refine ⟨real_exact, ?_, ?_, ?_, ?_⟩
  · exact (calculateLightIntensity_contract _ real_exact ⟨0, 0, 0⟩ ⟨0, 0, 0⟩).1
  · obtain ⟨v, hv, -, -, -, h1, -, -⟩ :=
      (calculateLightIntensity_contract _ real_exact ⟨1, 0, 0⟩ ⟨0, 0, 0⟩).2.2
        (vec3_x_ne _ _ (by norm_num))
    rw [hv, h1 (length_sub_origin real_exact 1 0 1 (by norm_num) (by norm_num))]
  · obtain ⟨v, hv, -, -, -, -, h100, -⟩ :=
      (calculateLightIntensity_contract _ real_exact ⟨100, 0, 0⟩ ⟨0, 0, 0⟩).2.2
        (vec3_x_ne _ _ (by norm_num))
    rw [hv, h100 (length_sub_origin real_exact 100 0 100 (by norm_num) (by norm_num))]
  · obtain ⟨v, hv, -, -, -, -, -, h400⟩ :=
      (calculateLightIntensity_contract _ real_exact ⟨400, 0, 0⟩ ⟨0, 0, 0⟩).2.2
        (vec3_x_ne _ _ (by norm_num))
    rw [hv, h400 (length_sub_origin real_exact 400 0 400 (by norm_num) (by norm_num))]

/-- C3 (amended) in the program's initial scene with ForceLunar active, over the
exact real routines. -/
theorem frame_forceLunar_default_witness :
    (MathOps.mk Real.sqrt Real.cos Real.sin).Exact ∧
    (frame (MathOps.mk Real.sqrt Real.cos Real.sin)
      { Globals.initial with forceLunarEclipse := true }).angle = -1 ∧
    (frame (MathOps.mk Real.sqrt Real.cos Real.sin)
      { Globals.initial with forceLunarEclipse := true }).earthInShadow = false ∧
    (frame (MathOps.mk Real.sqrt Real.cos Real.sin)
      { Globals.initial with forceLunarEclipse := true }).earthLightMultiplier = some 1 ∧
    (frame (MathOps.mk Real.sqrt Real.cos Real.sin)
      { Globals.initial with forceLunarEclipse := true }).moonLightMultiplier
        = some 0.1 :=
  ⟨real_exact, (frame_forceLunar_default _ real_exact 0 0).2.2⟩

/-- C4 (amended) at `earthOrbitAngle = 0`, `moonOrbitAngle = π` (Moon between Sun
and Earth): the dot product is 1, Earth is shadowed with multiplier 0.1. -/
theorem frame_normal_aligned_witness :
    (0.99 : ℝ) < (frame (MathOps.mk Real.sqrt Real.cos Real.sin)
      ⟨0, Real.pi, 200, 80, ⟨0, 0, 0⟩, false, false⟩).angle ∧
    (frame (MathOps.mk Real.sqrt Real.cos Real.sin)
      ⟨0, Real.pi, 200, 80, ⟨0, 0, 0⟩, false, false⟩).earthInShadow = true ∧
    (frame (MathOps.mk Real.sqrt Real.cos Real.sin)
      ⟨0, Real.pi, 200, 80, ⟨0, 0, 0⟩, false, false⟩).earthLightMultiplier = some 0.1 := by
  have hdot : (0.99 : ℝ) < (frame (MathOps.mk Real.sqrt Real.cos Real.sin)
      ⟨0, Real.pi, 200, 80, ⟨0, 0, 0⟩, false, false⟩).angle := by
    rw [(frame_normal_values real_exact (0 : ℝ) Real.pi).1]
    simp only [Real.cos_zero, Real.sin_zero, Real.cos_pi, Real.sin_pi]
    norm_num
  exact ⟨hdot, frame_normal_aligned _ _ rfl rfl hdot⟩

/-- C5 in the program's initial scene with ForceSolar active: Earth `(200, 0, 0)`,
Moon `(120, 0, 0)`, Earth shadowed with multiplier 0.1. -/
theorem frame_forceSolar_witness :
    (frame (MathOps.mk Real.sqrt Real.cos Real.sin)
      { Globals.initial with forceSolarEclipse := true }).earthPos = ⟨200, 0, 0⟩ ∧
    (frame (MathOps.mk Real.sqrt Real.cos Real.sin)
      { Globals.initial with forceSolarEclipse := true }).moonPos = ⟨120, 0, 0⟩ ∧
    (frame (MathOps.mk Real.sqrt Real.cos Real.sin)
      { Globals.initial with forceSolarEclipse := true }).earthInShadow = true ∧
    (frame (MathOps.mk Real.sqrt Real.cos Real.sin)
      { Globals.initial with forceSolarEclipse := true }).earthLightMultiplier
        = some 0.1 := by
  obtain ⟨-, -, h3, h4, h5⟩ :=
    frame_forceSolar (MathOps.mk Real.sqrt Real.cos Real.sin)
      { Globals.initial with forceSolarEclipse := true } rfl
  exact ⟨(h5 rfl rfl).1, (h5 rfl rfl).2, h3, h4⟩

/-- C6 in the program's initial scene (Normal mode, both angles 0): Earth at
distance 200, Moon at distance at least 120, both multipliers have a value. -/
theorem frame_never_divides_by_zero_witness :
    (MathOps.mk Real.sqrt Real.cos Real.sin).Exact ∧
    length (MathOps.mk Real.sqrt Real.cos Real.sin)
      ((frame (MathOps.mk Real.sqrt Real.cos Real.sin) Globals.initial).earthPos.sub
        ⟨0, 0, 0⟩) = 200 ∧
    120 ≤ length (MathOps.mk Real.sqrt Real.cos Real.sin)
      ((frame (MathOps.mk Real.sqrt Real.cos Real.sin) Globals.initial).moonPos.sub
        ⟨0, 0, 0⟩) ∧
    (frame (MathOps.mk Real.sqrt Real.cos Real.sin)
      Globals.initial).earthLightMultiplier.isSome = true ∧
    (frame (MathOps.mk Real.sqrt Real.cos Real.sin)
      Globals.initial).moonLightMultiplier.isSome = true := by
  obtain ⟨-, -, h3, h4, -, -, h5, h6⟩ :=
    frame_never_divides_by_zero (MathOps.mk Real.sqrt Real.cos Real.sin) real_exact 0 0 false false
  exact ⟨real_exact, h3, h4, h5, h6⟩

/-- C8 (amended) at the program's call `createCircle(200, 100)`: 101 points. -/
theorem createCircle_length_witness :
    (0 : ℝ) < 200 ∧ (1 : ℤ) ≤ 100 ∧ (100 : ℤ) < INT_MAX ∧
    ∃ pts, createCircle (MathOps.mk Real.sqrt Real.cos Real.sin) 200 100 = some pts ∧
      (pts.length : ℤ) = 100 + 1 :=
  ⟨by norm_num, by norm_num, by norm_num [INT_MAX],
    createCircle_length _ 200 100 (by norm_num) (by norm_num) (by norm_num [INT_MAX])⟩

/-- C10 on concrete runs from the initial state.  G held for three frames with H
pressed in the second: the action fires in the first frame and in neither later
frame.  G held alone for two frames: the run ends in ForceSolar. -/
theorem solarForce_fires_once_witness :
    (∀ k ∈ [Keys.mk 1 0 0, Keys.mk 1 1 0, Keys.mk 1 0 0], k.G = GLFW_PRESS) ∧
    solarFires (Keys.mk 1 0 0) InputState.initial = true ∧
    solarFires (Keys.mk 1 1 0) (runInput [Keys.mk 1 0 0] InputState.initial) = false ∧
    solarFires (Keys.mk 1 0 0)
      (runInput [Keys.mk 1 0 0, Keys.mk 1 1 0] InputState.initial) = false ∧
    (runInput [Keys.mk 1 0 0, Keys.mk 1 0 0] InputState.initial).forceSolarEclipse = true ∧
    (runInput [Keys.mk 1 0 0, Keys.mk 1 0 0] InputState.initial).forceLunarEclipse
      = false := by
  have hheld : ∀ k ∈ [Keys.mk 1 0 0, Keys.mk 1 1 0, Keys.mk 1 0 0], k.G = GLFW_PRESS := by
    intro k hk
    simp only [List.mem_cons, List.mem_singleton, List.not_mem_nil, or_false] at hk
    rcases hk with rfl | rfl | rfl <;> rfl
  have hheld2 : ∀ k ∈ [Keys.mk 1 0 0, Keys.mk 1 0 0], k.G = GLFW_PRESS := by
    intro k hk
    simp only [List.mem_cons, List.mem_singleton, List.not_mem_nil, or_false] at hk
    rcases hk with rfl | rfl <;> rfl
  have hidle : ∀ k ∈ [Keys.mk 1 0 0, Keys.mk 1 0 0],
      k.H ≠ GLFW_PRESS ∧ k.J ≠ GLFW_PRESS := by
    intro k hk
    simp only [List.mem_cons, List.mem_singleton, List.not_mem_nil, or_false] at hk
    rcases hk with rfl | rfl <;> exact ⟨by decide, by decide⟩
  obtain ⟨h0, hlater, -⟩ := solarForce_fires_once InputState.initial
    [Keys.mk 1 0 0, Keys.mk 1 1 0, Keys.mk 1 0 0] hheld
  obtain ⟨-, -, hhold⟩ := solarForce_fires_once InputState.initial
    [Keys.mk 1 0 0, Keys.mk 1 0 0] hheld2
  have hfinal := hhold rfl rfl rfl (by simp) hidle
  exact ⟨hheld, (h0 _ rfl).1.2 rfl, (hlater 1 _ (by norm_num) rfl).1,
    (hlater 2 _ (by norm_num) rfl).1, hfinal.1, hfinal.2⟩

end SolarSystem
